import Mathlib

/-!
Verification development for the OmniSeller backend's Marketplace Connector
(`src/server.js`).  The JavaScript code is shallowly embedded: pure helpers
become Lean functions, the Express handlers become pure functions of an
explicit database value and an oracle for the external marketplace API, and
JavaScript `null` / thrown exceptions become `Option` / `Except`.
-/

namespace OmniSeller

/-! ## Bytes, UTF-8, SHA-256, HMAC (the `crypto.createHmac('sha256', …)` call)

Bytes are `Nat`s below 256; 32-bit words are `Nat`s reduced mod `2 ^ 32`.
-/

/-- UTF-8 encoding of a single character, as a list of bytes. -/
def utf8Bytes (c : Char) : List Nat :=
  let n := c.toNat
  if n < 0x80 then [n]
  else if n < 0x800 then [0xC0 + n / 64, 0x80 + n % 64]
  else if n < 0x10000 then [0xE0 + n / 4096, 0x80 + n / 64 % 64, 0x80 + n % 64]
  else [0xF0 + n / 262144, 0x80 + n / 4096 % 64, 0x80 + n / 64 % 64, 0x80 + n % 64]

/-- The UTF-8 bytes of a string. -/
def strBytes (s : String) : List Nat :=
  s.data.foldr (fun c acc => utf8Bytes c ++ acc) []

/-- Truncation to a 32-bit word. -/
def w32 (n : Nat) : Nat := n % 4294967296

/-- Right rotation of a 32-bit word by `n` places (`0 < n < 32`). -/
def rotr32 (x n : Nat) : Nat := x / 2 ^ n + x % 2 ^ n * 2 ^ (32 - n)

/-- SHA-256 `Ch` function. -/
def shaCh (x y z : Nat) : Nat := (x &&& y) ^^^ ((0xFFFFFFFF ^^^ x) &&& z)

/-- SHA-256 `Maj` function. -/
def shaMaj (x y z : Nat) : Nat := (x &&& y) ^^^ (x &&& z) ^^^ (y &&& z)

/-- SHA-256 big sigma 0. -/
def bigS0 (x : Nat) : Nat := rotr32 x 2 ^^^ rotr32 x 13 ^^^ rotr32 x 22

/-- SHA-256 big sigma 1. -/
def bigS1 (x : Nat) : Nat := rotr32 x 6 ^^^ rotr32 x 11 ^^^ rotr32 x 25

/-- SHA-256 small sigma 0. -/
def smallS0 (x : Nat) : Nat := rotr32 x 7 ^^^ rotr32 x 18 ^^^ x / 2 ^ 3

/-- SHA-256 small sigma 1. -/
def smallS1 (x : Nat) : Nat := rotr32 x 17 ^^^ rotr32 x 19 ^^^ x / 2 ^ 10

/-- The 64 SHA-256 round constants (FIPS 180-4, written in decimal). -/
def sha256K : List Nat :=
  [1116352408, 1899447441, 3049323471, 3921009573, 961987163,
   1508970993, 2453635748, 2870763221, 3624381080, 310598401,
   607225278, 1426881987, 1925078388, 2162078206, 2614888103,
   3248222580, 3835390401, 4022224774, 264347078, 604807628,
   770255983, 1249150122, 1555081692, 1996064986, 2554220882,
   2821834349, 2952996808, 3210313671, 3336571891, 3584528711,
   113926993, 338241895, 666307205, 773529912, 1294757372,
   1396182291, 1695183700, 1986661051, 2177026350, 2456956037,
   2730485921, 2820302411, 3259730800, 3345764771, 3516065817,
   3600352804, 4094571909, 275423344, 430227734, 506948616,
   659060556, 883997877, 958139571, 1322822218, 1537002063,
   1747873779, 1955562222, 2024104815, 2227730452, 2361852424,
   2428436474, 2756734187, 3204031479, 3329325298]

/-- The SHA-256 initial hash state (FIPS 180-4, written in decimal). -/
def sha256H0 : List Nat :=
  [1779033703, 3144134277, 1013904242, 2773480762,
   1359893119, 2600822924, 528734635, 1541459225]

/-- Big-endian byte encoding (given width `n`) of a natural number. -/
def natToBytesBE : Nat → Nat → List Nat
  | 0, _ => []
  | n + 1, x => natToBytesBE n (x / 256) ++ [x % 256]

/-- SHA-256 message padding: append `0x80`, zeros, and the 64-bit bit length. -/
def padMsg (msg : List Nat) : List Nat :=
  let l := msg.length
  msg ++ 0x80 :: List.replicate ((119 - l % 64) % 64) 0 ++ natToBytesBE 8 (8 * l)

/-- Combine bytes into 32-bit big-endian words. -/
def bytesToWordsBE : List Nat → List Nat
  | b0 :: b1 :: b2 :: b3 :: rest =>
      (((b0 * 256 + b1) * 256 + b2) * 256 + b3) :: bytesToWordsBE rest
  | _ => []

/-- Split a word list into 16-word blocks. -/
def chunk16 : List Nat → List (List Nat)
  | [] => []
  | a :: rest => (a :: List.take 15 rest) :: chunk16 (List.drop 15 rest)
termination_by l => l.length
decreasing_by simp only [List.length_cons, List.length_drop]; omega

/-- Extend the message schedule by one word. -/
def extendOne (w : List Nat) : List Nat :=
  w ++ [w32 (smallS1 (w.getD (w.length - 2) 0) + w.getD (w.length - 7) 0 +
             smallS0 (w.getD (w.length - 15) 0) + w.getD (w.length - 16) 0)]

/-- The full 64-word message schedule from a 16-word block. -/
def schedule (w : List Nat) : List Nat :=
  (List.range 48).foldl (fun acc _ => extendOne acc) w

/-- One SHA-256 compression round; the state is the 8-word working vector. -/
def compressStep (st : List Nat) (kw : Nat × Nat) : List Nat :=
  match st with
  | [a, b, c, d, e, f, g, h] =>
      let t1 := w32 (h + bigS1 e + shaCh e f g + kw.1 + kw.2)
      let t2 := w32 (bigS0 a + shaMaj a b c)
      [w32 (t1 + t2), a, b, c, w32 (d + t1), e, f, g]
  | other => other

/-- Process one 16-word block. -/
def sha256Block (h : List Nat) (block : List Nat) : List Nat :=
  let st := (sha256K.zip (schedule block)).foldl compressStep h
  (h.zip st).map fun p => w32 (p.1 + p.2)

/-- SHA-256 of a byte list, as a 32-byte list. -/
def sha256Bytes (msg : List Nat) : List Nat :=
  let hh := (chunk16 (bytesToWordsBE (padMsg msg))).foldl sha256Block sha256H0
  hh.foldr (fun x acc => natToBytesBE 4 x ++ acc) []

/-- HMAC-SHA256 (RFC 2104) of a message under a key, both byte lists. -/
def hmacSha256 (key msg : List Nat) : List Nat :=
  let k0 := if 64 < key.length then sha256Bytes key else key
  let kp := k0 ++ List.replicate (64 - k0.length) 0
  sha256Bytes (kp.map (Nat.xor 0x5c) ++ sha256Bytes (kp.map (Nat.xor 0x36) ++ msg))

/-- One lowercase hexadecimal digit. -/
def hexDigit (n : Nat) : Char := Char.ofNat (if n < 10 then 48 + n else 87 + n)

/-- Lowercase hexadecimal rendering of a byte list. -/
def bytesToHex (l : List Nat) : String :=
  String.mk (l.foldr (fun b acc => hexDigit (b / 16) :: hexDigit (b % 16) :: acc) [])

/-- Embedding of `crypto.createHmac('sha256', key).update(msg).digest('hex')`. -/
def hmacSha256Hex (key msg : String) : String :=
  bytesToHex (hmacSha256 (strBytes key) (strBytes msg))

/-! ## Signature Engine

`calculateSignature` embeds `src/server.js:26-41`.  A JavaScript object of
query parameters is modelled as an association list in insertion order
(object keys are unique, so the lists of interest have `Nodup` keys);
`Object.keys` is `List.map Prod.fst`, `queryParams[key]` is `getParam`, and
the default `Array.prototype.sort` on strings is a stable sort by `≤`
(it agrees with code-point order on the plain-ASCII keys used here).
-/

/-- Boolean string comparison used for key sorting. -/
def strLe (a b : String) : Bool := decide (a ≤ b)

/-- Lookup `queryParams[key]`: value of the first binding of `k`. -/
def getParam (params : List (String × String)) (k : String) : String :=
  (params.lookup k).getD ""

/-- Embedding of `calculateSignature` (src/server.js:26-41): filter the keys,
sort them, concatenate `appSecret + path + (key + value)… + appSecret`, and
HMAC-SHA256 the result under `appSecret`, as lowercase hex. -/
def calculateSignature (appSecret path : String) (queryParams : List (String × String)) : String :=
  let keys := ((queryParams.map Prod.fst).filter
      fun k => k != "sign" && k != "access_token").mergeSort strLe
  let input := keys.foldl (fun acc key => acc ++ key ++ getParam queryParams key)
      (appSecret ++ path) ++ appSecret
  hmacSha256Hex appSecret input

/-- The reference digest, written from the spec's words (§4.1): remove the
keys `sign` and `access_token` from the map, sort the remaining keys
lexicographically, build
`appSecret + path + concat(key + stringValue(params[key])) + appSecret`,
and output the HMAC-SHA256 of that string keyed by `appSecret` as lowercase
hexadecimal. -/
def specSignature (appSecret path : String) (params : List (String × String)) : String :=
  let remaining := params.filter fun kv => kv.1 != "sign" && kv.1 != "access_token"
  let sortedKeys := (remaining.map Prod.fst).mergeSort strLe
  hmacSha256Hex appSecret
    (appSecret ++ path ++
      (sortedKeys.map fun k => k ++ getParam params k).foldr (· ++ ·) "" ++ appSecret)

/-- Folding string concatenation from the left over a list of pieces equals
appending the concatenation of the pieces. -/
theorem foldl_append_eq (v : String → String) :
    ∀ (keys : List String) (init : String),
      keys.foldl (fun acc k => acc ++ k ++ v k) init
        = init ++ (keys.map fun k => k ++ v k).foldr (· ++ ·) "" := by
  intro keys
  induction keys with
  | nil => intro init; simp
  | cons k rest ih =>
      intro init
      simp only [List.foldl_cons, List.map_cons, List.foldr_cons]
      rw [ih, String.append_assoc, String.append_assoc, String.append_assoc]

/-- With `Nodup` keys, `lookup` is invariant under permutation of the
association list. -/
theorem lookup_eq_of_perm {l1 l2 : List (String × String)} (h : l1.Perm l2) :
    (l1.map Prod.fst).Nodup → ∀ k, l1.lookup k = l2.lookup k := by
  induction h with
  | nil => intro _ _; rfl
  | cons x h ih =>
      intro nd k
      obtain ⟨x1, x2⟩ := x
      simp only [List.map_cons, List.nodup_cons] at nd
      simp only [List.lookup]
      cases hk : k == x1 with
      | true => rfl
      | false => exact ih nd.2 k
  | swap x y t =>
      intro nd k
      obtain ⟨x1, x2⟩ := x
      obtain ⟨y1, y2⟩ := y
      simp only [List.map_cons, List.nodup_cons, List.mem_cons] at nd
      have hne : y1 ≠ x1 := fun e => nd.1 (Or.inl e)
      simp only [List.lookup]
      cases hx : k == x1 <;> cases hy : k == y1 <;> simp
      exact absurd (by rw [← beq_iff_eq.mp hy, beq_iff_eq.mp hx]) hne
  | trans h1 h2 ih1 ih2 =>
      intro nd k
      rw [ih1 nd k, ih2 (((h1.map Prod.fst).nodup_iff).mp nd) k]

/-- Sorting with `mergeSort` by `strLe` depends only on the multiset of elements. -/
theorem mergeSort_eq_of_perm {l1 l2 : List String} (h : l1.Perm l2) :
    l1.mergeSort strLe = l2.mergeSort strLe := by
  have htrans : ∀ a b c : String, strLe a b → strLe b c → strLe a c := by
    intro a b c h1 h2
    simp only [strLe, decide_eq_true_eq] at *
    exact le_trans h1 h2
  have htotal : ∀ a b : String, strLe a b || strLe b a := by
    intro a b
    simp only [strLe, Bool.or_eq_true, decide_eq_true_eq]
    exact le_total a b
  haveI : IsAntisymm String (fun a b : String => strLe a b = true) := by
    constructor
    intro a b h1 h2
    simp only [strLe, decide_eq_true_eq] at h1 h2
    exact le_antisymm h1 h2
  exact List.eq_of_perm_of_sorted
    ((List.mergeSort_perm l1 strLe).trans (h.trans (List.mergeSort_perm l2 strLe).symm))
    (List.sorted_mergeSort htrans htotal l1)
    (List.sorted_mergeSort htrans htotal l2)

/-- C1: for every `appSecret`, `path`, and parameter map, the signature
function of the source returns exactly the reference digest described by the
spec (remove `sign`/`access_token`, sort the remaining keys, concatenate
`appSecret + path + (key + value)… + appSecret`, HMAC-SHA256 under
`appSecret`, lowercase hex). -/
theorem calculateSignature_eq_reference (appSecret path : String)
    (params : List (String × String)) :
    calculateSignature appSecret path params = specSignature appSecret path params := by
  unfold calculateSignature specSignature
  simp only [List.filter_map, foldl_append_eq]
  rfl

/-- C2: the signature is deterministic (identical inputs give identical
digests), and permuting the insertion order of a parameter map with distinct
keys leaves the digest unchanged. -/
theorem calculateSignature_order_invariant (secret path : String)
    (l1 l2 : List (String × String)) (hperm : l1.Perm l2)
    (hnodup : (l1.map Prod.fst).Nodup) :
    calculateSignature secret path l1 = calculateSignature secret path l1 ∧
    calculateSignature secret path l2 = calculateSignature secret path l1 := by
  refine ⟨rfl, ?_⟩
  unfold calculateSignature
  have hkeys : ((l2.map Prod.fst).filter
        fun k => k != "sign" && k != "access_token").mergeSort strLe
      = ((l1.map Prod.fst).filter
        fun k => k != "sign" && k != "access_token").mergeSort strLe :=
    mergeSort_eq_of_perm (((hperm.symm).map Prod.fst).filter _)
  have hget : (fun acc key => acc ++ key ++ getParam l2 key)
      = (fun acc key => acc ++ key ++ getParam l1 key) := by
    funext acc key
    unfold getParam
    rw [lookup_eq_of_perm hperm hnodup key]
  rw [hkeys, hget]

/-- Witness for C2 at a concrete pair of re-ordered parameter maps. -/
theorem calculateSignature_order_invariant_witness :
    calculateSignature "sec" "/p"
        [("timestamp", "17"), ("app_key", "AK")]
      = calculateSignature "sec" "/p"
        [("app_key", "AK"), ("timestamp", "17")] :=
  (calculateSignature_order_invariant "sec" "/p"
    [("app_key", "AK"), ("timestamp", "17")]
    [("timestamp", "17"), ("app_key", "AK")]
    (by decide) (by decide)).2

/-! ## Normalizer: order-status translation

`mapTikTokStatus` embeds `src/server.js:349-360`: a fixed object literal
looked up by the external status, with `|| 'Processing'` as the fallback
(all table values are nonempty strings, so JavaScript truthiness coincides
with presence in the table).
-/

/-- The object literal of src/server.js:350-358. -/
def tiktokStatusTable : List (String × String) :=
  [("UNPAID", "Unpaid"), ("AWAITING_SHIPMENT", "Processing"),
   ("AWAITING_COLLECTION", "Processing"), ("IN_TRANSIT", "Shipped"),
   ("DELIVERED", "Completed"), ("COMPLETED", "Completed"),
   ("CANCELLED", "Cancelled")]

/-- Embedding of `mapTikTokStatus` (src/server.js:349-360). -/
def mapTikTokStatus (status : String) : String :=
  (tiktokStatusTable.lookup status).getD "Processing"

/-- The five canonical order statuses. -/
def canonicalStatuses : List String :=
  ["Unpaid", "Processing", "Shipped", "Completed", "Cancelled"]

/-- C5: the order-status translation maps each table entry as listed, maps
every value outside the table to `Processing`, and always lands in the five
canonical statuses. -/
theorem mapTikTokStatus_total :
    mapTikTokStatus "UNPAID" = "Unpaid" ∧
    mapTikTokStatus "AWAITING_SHIPMENT" = "Processing" ∧
    mapTikTokStatus "AWAITING_COLLECTION" = "Processing" ∧
    mapTikTokStatus "IN_TRANSIT" = "Shipped" ∧
    mapTikTokStatus "DELIVERED" = "Completed" ∧
    mapTikTokStatus "COMPLETED" = "Completed" ∧
    mapTikTokStatus "CANCELLED" = "Cancelled" ∧
    (∀ s : String, s ∉ tiktokStatusTable.map Prod.fst → mapTikTokStatus s = "Processing") ∧
    (∀ s : String, mapTikTokStatus s ∈ canonicalStatuses) := by
  refine ⟨rfl, rfl, rfl, rfl, rfl, rfl, rfl, ?_, ?_⟩
  · intro s hs
    simp only [tiktokStatusTable, List.map_cons, List.map_nil, List.mem_cons,
      List.not_mem_nil, or_false, not_or] at hs
    obtain ⟨h1, h2, h3, h4, h5, h6, h7⟩ := hs
    simp [mapTikTokStatus, tiktokStatusTable, List.lookup, beq_false_of_ne,
      h1, h2, h3, h4, h5, h6, h7]
  · intro s
    unfold mapTikTokStatus tiktokStatusTable canonicalStatuses
    simp only [List.lookup]
    cases h1 : s == "UNPAID" <;> cases h2 : s == "AWAITING_SHIPMENT" <;>
      cases h3 : s == "AWAITING_COLLECTION" <;> cases h4 : s == "IN_TRANSIT" <;>
      cases h5 : s == "DELIVERED" <;> cases h6 : s == "COMPLETED" <;>
      cases h7 : s == "CANCELLED" <;> simp

/-- Witness for C5: a value outside the table maps to `Processing`. -/
theorem mapTikTokStatus_total_witness :
    mapTikTokStatus "SOMETHING_ELSE" = "Processing" :=
  mapTikTokStatus_total.2.2.2.2.2.2.2.1 "SOMETHING_ELSE" (by decide)

/-! ## Normalizer: external payloads and the canonical records

The TikTok JSON payloads are embedded as structures whose optional pieces
are `Option`s or possibly-empty lists.  JavaScript property access on
`undefined` throws a `TypeError`; the product mapping is therefore
`Except String`-valued, an `Except.error` modelling the thrown exception.
An `Option String` field models a value that may be JavaScript `undefined`.
`parseInt`/`Date` rendering of the order timestamps is not modelled: the
canonical order keeps the raw epoch numbers.
-/

/-- JavaScript `parseFloat`, modelled on optionally signed decimal literals
`[-][digits][.digits]`; `none` models `NaN`.  Exponents, `Infinity`,
leading whitespace and a leading `+` are not modelled (no value in this
development needs them). -/
def parseFloatJS (s : String) : Option Rat :=
  let signed := match s.data with
    | '-' :: rest => (true, rest)
    | cs => (false, cs)
  let intPart := signed.2.takeWhile Char.isDigit
  let afterInt := signed.2.dropWhile Char.isDigit
  let fracPart := match afterInt with
    | '.' :: r => r.takeWhile Char.isDigit
    | _ => []
  if intPart = [] ∧ fracPart = [] then none
  else
    let digitsVal : List Char → Nat := fun ds => ds.foldl (fun a c => a * 10 + (c.toNat - 48)) 0
    let mag : Rat := (digitsVal intPart : Rat) + (digitsVal fracPart : Rat) / ((10 : Rat) ^ fracPart.length)
    some (if signed.1 then -mag else mag)

/-- Shape of `skus[i].price` in the external product payload. -/
structure ExtPrice where
  tax_exclusive_price : String
  deriving DecidableEq, Repr

/-- Shape of `skus[i].inventory[j]` in the external product payload. -/
structure ExtInventory where
  quantity : Int
  deriving DecidableEq, Repr

/-- One entry of `skus`; `price` may be absent (JS `undefined`). -/
structure ExtSku where
  seller_sku : String
  price : Option ExtPrice
  inventory : List ExtInventory
  deriving DecidableEq, Repr

/-- One entry of `main_images`. -/
structure ExtMainImage where
  thumb_urls : List String
  deriving DecidableEq, Repr

/-- An external product as read by the product mapping
(src/server.js:263-273). -/
structure ExtProduct where
  id : String
  title : String
  skus : List ExtSku
  main_images : List ExtMainImage
  sales : Option Int
  status : String
  deriving DecidableEq, Repr

/-- The platform's canonical product record.  `price = none` models `NaN`;
`imageUrl = none` models JavaScript `undefined`. -/
structure CanonicalProduct where
  id : String
  storeId : Nat
  name : String
  sku : String
  price : Option Rat
  stock : Int
  imageUrl : Option String
  sold : Int
  status : String
  deriving DecidableEq, Repr

/-- Evaluation of `(p.main_images && p.main_images[0]) ? p.main_images[0].thumb_urls[0] : ''`
— with no main image the literal `''` is produced; with a main image the
first thumb url is taken and may be `undefined` (`none`). -/
def productImageUrl (p : ExtProduct) : Option String :=
  match p.main_images.head? with
  | some mi => mi.thumb_urls.head?
  | none => some ""

/-- Embedding of the product mapping (src/server.js:263-273).  The three
sku-derived fields are guarded by `p.skus && p.skus[0]` only: when a first
sku exists, `p.skus[0].price.tax_exclusive_price` and
`p.skus[0].inventory[0].quantity` dereference `price` and `inventory[0]`
unconditionally, so their absence throws (`Except.error`). -/
def mapProduct (storeId : Nat) (p : ExtProduct) : Except String CanonicalProduct :=
  match p.skus.head? with
  | some sku => do
      let priceVal ← match sku.price with
        | some pr => Except.ok (parseFloatJS pr.tax_exclusive_price)
        | none => Except.error "TypeError: cannot read properties of undefined (reading 'tax_exclusive_price')"
      let stockVal ← match sku.inventory.head? with
        | some inv => Except.ok inv.quantity
        | none => Except.error "TypeError: cannot read properties of undefined (reading 'quantity')"
      Except.ok
        { id := p.id, storeId := storeId, name := p.title, sku := sku.seller_sku,
          price := priceVal, stock := stockVal, imageUrl := productImageUrl p,
          sold := p.sales.getD 0,
          status := if p.status = "ACTIVATE" then "Active" else "Inactive" }
  | none =>
      Except.ok
        { id := p.id, storeId := storeId, name := p.title, sku := "NO-SKU",
          price := some 0, stock := 0, imageUrl := productImageUrl p,
          sold := p.sales.getD 0,
          status := if p.status = "ACTIVATE" then "Active" else "Inactive" }

/-- Shape of `line_items[i]` in the external order payload. -/
structure ExtLineItem where
  product_id : String
  product_name : String
  sale_price : String
  sku_image : Option String
  deriving DecidableEq, Repr

/-- Shape of `payment_info` in the external order payload. -/
structure ExtPayment where
  total_amount : String
  deriving DecidableEq, Repr

/-- An external order as read by the order mapping (src/server.js:324-340).
`payment_info` and `line_items` are taken as present: the source
dereferences them unconditionally, and no claim treats them as optional. -/
structure ExtOrder where
  id : String
  buyer_email : Option String
  status : String
  payment_info : ExtPayment
  create_time : Nat
  update_time : Nat
  line_items : List ExtLineItem
  deriving DecidableEq, Repr

/-- A canonical order line item. -/
structure CanonicalItem where
  productId : String
  name : String
  quantity : Nat
  price : Option Rat
  imageUrl : String
  deriving DecidableEq, Repr

/-- The platform's canonical order record (timestamps kept as raw epochs). -/
structure CanonicalOrder where
  id : String
  userId : String
  storeId : Nat
  customerName : String
  status : String
  total : Option Rat
  createdAt : Nat
  updatedAt : Nat
  items : List CanonicalItem
  deriving DecidableEq, Repr

/-- JavaScript `a || b` on an optional string: `b` when absent or empty. -/
def jsOrString (a : Option String) (b : String) : String :=
  match a with
  | some s => if s = "" then b else s
  | none => b

/-- Embedding of the order line-item mapping (src/server.js:333-339);
`quantity` is the literal `1` of the source. -/
def mapOrderItem (it : ExtLineItem) : CanonicalItem :=
  { productId := it.product_id, name := it.product_name, quantity := 1,
    price := parseFloatJS it.sale_price, imageUrl := jsOrString it.sku_image "" }

/-- Embedding of the order mapping (src/server.js:324-340). -/
def mapOrder (userId : String) (storeId : Nat) (o : ExtOrder) : CanonicalOrder :=
  { id := o.id, userId := userId, storeId := storeId,
    customerName := jsOrString o.buyer_email "TikTok User",
    status := mapTikTokStatus o.status,
    total := parseFloatJS o.payment_info.total_amount,
    createdAt := o.create_time, updatedAt := o.update_time,
    items := o.line_items.map mapOrderItem }

/-- A well-formed product payload whose first sku exists but carries no
`price` object. -/
def productNoPrice : ExtProduct :=
  { id := "p1", title := "Widget",
    skus := [{ seller_sku := "A-1", price := none, inventory := [{ quantity := 3 }] }],
    main_images := [], sales := some 5, status := "ACTIVATE" }

/-- Counterexample to C6: with a first sku present but its `price` object
absent, the product mapping raises a `TypeError` instead of degrading to the
default `0`. -/
theorem mapProduct_missing_price_raises :
    mapProduct 1 productNoPrice
      = Except.error "TypeError: cannot read properties of undefined (reading 'tax_exclusive_price')" := rfl

/-- C6 (amended): the defaults apply to the guarded absences — no first sku
gives `NO-SKU`/`0`/`0`, no main image gives `''`, no sales count gives `0`,
no buyer email gives `'TikTok User'`, no sku image gives `''` — and none of
these cases raises an error.  (When a first sku is present, its `price`
object and first `inventory` entry are dereferenced unconditionally; their
absence raises a `TypeError` rather than defaulting, per the
counterexample.) -/
theorem mapping_defaults (sid : Nat) (uid : String) (p : ExtProduct) (o : ExtOrder)
    (hsku : p.skus = []) (himg : p.main_images = []) (hsales : p.sales = none)
    (hbuyer : o.buyer_email = none) (hitems : ∀ it ∈ o.line_items, it.sku_image = none) :
    mapProduct sid p = Except.ok
      { id := p.id, storeId := sid, name := p.title, sku := "NO-SKU",
        price := some 0, stock := 0, imageUrl := some "", sold := 0,
        status := if p.status = "ACTIVATE" then "Active" else "Inactive" } ∧
    (mapOrder uid sid o).customerName = "TikTok User" ∧
    ∀ ci ∈ (mapOrder uid sid o).items, ci.imageUrl = "" := by
  refine ⟨?_, ?_, ?_⟩
  · unfold mapProduct productImageUrl
    rw [hsku, himg, hsales]
    rfl
  · unfold mapOrder
    rw [hbuyer]
    rfl
  · intro ci hci
    unfold mapOrder at hci
    simp only [List.mem_map] at hci
    obtain ⟨it, hit, hmap⟩ := hci
    rw [← hmap]
    unfold mapOrderItem
    rw [hitems it hit]
    rfl

/-- A product payload with every optional piece absent. -/
def bareProduct : ExtProduct :=
  { id := "p2", title := "Bare", skus := [], main_images := [],
    sales := none, status := "DRAFT" : ExtProduct }

/-- An order payload with no buyer email and no sku image. -/
def bareOrder : ExtOrder :=
  { id := "o1", buyer_email := none, status := "UNPAID",
    payment_info := { total_amount := "9.50" }, create_time := 0,
    update_time := 0,
    line_items := [{ product_id := "p2", product_name := "Bare",
                     sale_price := "9.50", sku_image := none }] : ExtOrder }

/-- The canonical record the bare product should normalize to. -/
def bareCanonical : CanonicalProduct :=
  { id := "p2", storeId := 7, name := "Bare", sku := "NO-SKU",
    price := some 0, stock := 0, imageUrl := some "", sold := 0,
    status := "Inactive" : CanonicalProduct }

/-- Witness for the amended C6 at a concrete bare product and order. -/
theorem mapping_defaults_witness :
    mapProduct 7 bareProduct = Except.ok bareCanonical ∧
    (mapOrder "u-1" 7 bareOrder).customerName = "TikTok User" := by
  have h := mapping_defaults 7 "u-1" bareProduct bareOrder rfl rfl rfl rfl (by decide)
  exact ⟨h.1, h.2.1⟩

/-! ## Request Proxy and Aggregator

The database is an explicit value (`Db`); `pool.query` SELECTs become list
filters in table order.  The external marketplace is an oracle from the
request data to a response; `axios` throwing is `ApiResponse.exn`.  Each
sync handler returns its HTTP outcome together with the list of external
API calls it attempted (the `last_sync` timestamp update and the request
body, which carries only paging constants, are not modelled).
-/

/-- A row of the `stores` table. -/
structure StoreRec where
  id : Nat
  userId : String
  marketplace : String
  storeName : String
  accessToken : String
  refreshToken : String
  marketplaceShopId : String
  isConnected : Bool
  deriving DecidableEq, Repr

/-- A row of the `marketplace_configs` table (fields the Connector reads). -/
structure ConfigRec where
  userId : String
  marketplace : String
  appKey : String
  appSecret : String
  deriving DecidableEq, Repr

/-- The persistent state read by the sync handlers. -/
structure Db where
  stores : List StoreRec
  configs : List ConfigRec
  deriving DecidableEq, Repr

/-- Query `SELECT * FROM stores WHERE user_id = $1 [AND id = $2]`
(src/server.js:227-235). -/
def storesQuery (db : Db) (userId : String) (storeId? : Option Nat) : List StoreRec :=
  db.stores.filter fun s =>
    s.userId == userId &&
      (match storeId? with | some sid => s.id == sid | none => true)

/-- Query `SELECT * FROM marketplace_configs WHERE user_id = 'u-admin-01' AND
marketplace = 'TikTok Shop'`, first row (src/server.js:239-240). -/
def adminConfigQuery (db : Db) : Option ConfigRec :=
  (db.configs.filter fun c =>
    c.userId == "u-admin-01" && c.marketplace == "TikTok Shop").head?

/-- The data of one outbound marketplace request. -/
structure ApiCall where
  appKey : String
  appSecret : String
  accessToken : String
  shopCipher : String
  path : String
  deriving DecidableEq, Repr

/-- Outcome of one `axios.post`: a thrown transport error, or a response
envelope `{code, …, data}`. -/
inductive ApiResponse (α : Type) where
  | exn
  | envelope (code : Int) (data : α)

/-- Embedding of `callTikTokAPI` (src/server.js:44-86): `null` (`none`) on a
transport exception or a nonzero envelope code, the envelope data
otherwise. -/
def callTikTokAPI {α : Type} (oracle : ApiCall → ApiResponse α) (c : ApiCall) : Option α :=
  match oracle c with
  | .exn => none
  | .envelope code data => if code ≠ 0 then none else some data

/-- The `data` of the product-search envelope; `products` may be absent. -/
structure ProductsData where
  products : Option (List ExtProduct)

/-- The `data` of the order-search envelope; `orders` may be absent. -/
structure OrdersData where
  orders : Option (List ExtOrder)

/-- The product-search request for one store (src/server.js:247-257). -/
def productCall (cfg : ConfigRec) (s : StoreRec) : ApiCall :=
  { appKey := cfg.appKey, appSecret := cfg.appSecret,
    accessToken := s.accessToken, shopCipher := s.marketplaceShopId,
    path := "/product/202309/products/search" }

/-- The order-search request for one store (src/server.js:308-319). -/
def orderCall (cfg : ConfigRec) (s : StoreRec) : ApiCall :=
  { appKey := cfg.appKey, appSecret := cfg.appSecret,
    accessToken := s.accessToken, shopCipher := s.marketplaceShopId,
    path := "/order/202309/orders/search" }

/-- The HTTP outcome of a handler: `res.json(body)` or a 500. -/
inductive HandlerResult (α : Type) where
  | ok (body : α)
  | serverError (msg : String)
  deriving DecidableEq, Repr

/-- The per-store loop of GET `/api/products` (src/server.js:244-277):
skip stores of other marketplaces, skip everything when no config row
exists, record each attempted call, skip a store whose call returned `null`
or whose data has no `products`, and abort with the exception when the
mapping of some product throws. -/
def productsLoop (oracle : ApiCall → ApiResponse ProductsData) (cfg? : Option ConfigRec) :
    List StoreRec → Except String (List CanonicalProduct) × List ApiCall
  | [] => (Except.ok [], [])
  | s :: rest =>
      match cfg? with
      | none => productsLoop oracle none rest
      | some cfg =>
          if s.marketplace == "TikTok Shop" then
            let c := productCall cfg s
            match callTikTokAPI oracle c with
            | some data =>
                match data.products with
                | some ps =>
                    match ps.mapM (mapProduct s.id) with
                    | Except.ok mapped =>
                        let r := productsLoop oracle (some cfg) rest
                        (r.1.map fun more => mapped ++ more, c :: r.2)
                    | Except.error e => (Except.error e, [c])
                | none =>
                    let r := productsLoop oracle (some cfg) rest
                    (r.1, c :: r.2)
            | none =>
                let r := productsLoop oracle (some cfg) rest
                (r.1, c :: r.2)
          else productsLoop oracle (some cfg) rest

/-- Embedding of GET `/api/products` (src/server.js:224-283): empty store
query short-circuits to `[]`; a thrown mapping error becomes a 500. -/
def productsSync (db : Db) (oracle : ApiCall → ApiResponse ProductsData)
    (userId : String) (storeId? : Option Nat) :
    HandlerResult (List CanonicalProduct) × List ApiCall :=
  let rows := storesQuery db userId storeId?
  if rows.isEmpty then (HandlerResult.ok [], [])
  else
    match productsLoop oracle (adminConfigQuery db) rows with
    | (Except.ok l, calls) => (HandlerResult.ok l, calls)
    | (Except.error e, calls) => (HandlerResult.serverError e, calls)

/-- The per-store loop of GET `/api/orders` (src/server.js:305-344). -/
def ordersLoop (oracle : ApiCall → ApiResponse OrdersData) (userId : String)
    (cfg? : Option ConfigRec) :
    List StoreRec → List CanonicalOrder × List ApiCall
  | [] => ([], [])
  | s :: rest =>
      match cfg? with
      | none => ordersLoop oracle userId none rest
      | some cfg =>
          if s.marketplace == "TikTok Shop" then
            let c := orderCall cfg s
            match callTikTokAPI oracle c with
            | some data =>
                match data.orders with
                | some os =>
                    let r := ordersLoop oracle userId (some cfg) rest
                    (os.map (mapOrder userId s.id) ++ r.1, c :: r.2)
                | none =>
                    let r := ordersLoop oracle userId (some cfg) rest
                    (r.1, c :: r.2)
            | none =>
                let r := ordersLoop oracle userId (some cfg) rest
                (r.1, c :: r.2)
          else ordersLoop oracle userId (some cfg) rest

/-- Embedding of GET `/api/orders` (src/server.js:286-347). -/
def ordersSync (db : Db) (oracle : ApiCall → ApiResponse OrdersData)
    (userId : String) (storeId? : Option Nat) :
    HandlerResult (List CanonicalOrder) × List ApiCall :=
  let rows := storesQuery db userId storeId?
  if rows.isEmpty then (HandlerResult.ok [], [])
  else
    let r := ordersLoop oracle userId (adminConfigQuery db) rows
    (HandlerResult.ok r.1, r.2)

/-- What one store contributes to the product aggregate. -/
def storeProducts (oracle : ApiCall → ApiResponse ProductsData) (cfg : ConfigRec)
    (s : StoreRec) : Except String (List CanonicalProduct) :=
  if s.marketplace == "TikTok Shop" then
    match callTikTokAPI oracle (productCall cfg s) with
    | some data =>
        match data.products with
        | some ps => ps.mapM (mapProduct s.id)
        | none => Except.ok []
    | none => Except.ok []
  else Except.ok []

/-- What one store contributes to the order aggregate. -/
def storeOrders (oracle : ApiCall → ApiResponse OrdersData) (userId : String)
    (cfg : ConfigRec) (s : StoreRec) : List CanonicalOrder :=
  if s.marketplace == "TikTok Shop" then
    match callTikTokAPI oracle (orderCall cfg s) with
    | some data =>
        match data.orders with
        | some os => os.map (mapOrder userId s.id)
        | none => []
    | none => []
  else []

/-- The product loop's result is the flattened sequence of per-store
contributions. -/
theorem productsLoop_eq_mapM (oracle : ApiCall → ApiResponse ProductsData)
    (cfg : ConfigRec) (rows : List StoreRec) :
    (productsLoop oracle (some cfg) rows).1
      = (rows.mapM (storeProducts oracle cfg)).map List.flatten := by
  induction rows with
  | nil => rfl
  | cons s rest ih =>
      cases hm : s.marketplace == "TikTok Shop"
      · simp only [productsLoop, storeProducts, List.mapM_cons, hm, Bool.false_eq_true,
          if_false, ih]
        cases hr : rest.mapM (storeProducts oracle cfg) <;> rfl
      · cases hc : callTikTokAPI oracle (productCall cfg s) with
        | none =>
            simp only [productsLoop, storeProducts, List.mapM_cons, hm, if_true, hc, ih]
            cases hr : rest.mapM (storeProducts oracle cfg) <;> rfl
        | some data =>
            cases hd : data.products with
            | none =>
                simp only [productsLoop, storeProducts, List.mapM_cons, hm, if_true, hc,
                  hd, ih]
                cases hr : rest.mapM (storeProducts oracle cfg) <;> rfl
            | some ps =>
                cases hp : ps.mapM (mapProduct s.id) with
                | error e =>
                    simp only [productsLoop, storeProducts, List.mapM_cons, hm, if_true,
                      hc, hd, hp]
                    rfl
                | ok mapped =>
                    simp only [productsLoop, storeProducts, List.mapM_cons, hm, if_true,
                      hc, hd, hp, ih]
                    cases hr : rest.mapM (storeProducts oracle cfg) <;> rfl

/-- The order loop's result is the flattened sequence of per-store
contributions. -/
theorem ordersLoop_eq_map (oracle : ApiCall → ApiResponse OrdersData)
    (userId : String) (cfg : ConfigRec) (rows : List StoreRec) :
    (ordersLoop oracle userId (some cfg) rows).1
      = (rows.map (storeOrders oracle userId cfg)).flatten := by
  induction rows with
  | nil => rfl
  | cons s rest ih =>
      cases hm : s.marketplace == "TikTok Shop"
      · simp [ordersLoop, storeOrders, hm, ih]
      · cases hc : callTikTokAPI oracle (orderCall cfg s) with
        | none => simp [ordersLoop, storeOrders, hm, hc, ih]
        | some data =>
            cases hd : data.orders with
            | none => simp [ordersLoop, storeOrders, hm, hc, hd, ih]
            | some os => simp [ordersLoop, storeOrders, hm, hc, hd, ih]

/-- A store whose call comes back `null` contributes no products. -/
theorem storeProducts_of_call_none (oracle : ApiCall → ApiResponse ProductsData)
    (cfg : ConfigRec) (f : StoreRec)
    (h : callTikTokAPI oracle (productCall cfg f) = none) :
    storeProducts oracle cfg f = Except.ok [] := by
  unfold storeProducts
  cases hm : f.marketplace == "TikTok Shop"
  · rfl
  · rw [if_pos rfl, h]

/-- A store whose call comes back `null` contributes no orders. -/
theorem storeOrders_of_call_none (oracle : ApiCall → ApiResponse OrdersData)
    (userId : String) (cfg : ConfigRec) (f : StoreRec)
    (h : callTikTokAPI oracle (orderCall cfg f) = none) :
    storeOrders oracle userId cfg f = [] := by
  unfold storeOrders
  cases hm : f.marketplace == "TikTok Shop"
  · rfl
  · rw [if_pos rfl, h]

/-- C3: when one of the seller's stores fails — transport error, thrown
exception, or nonzero envelope code, i.e. `callTikTokAPI` returns `null` —
the product sync and the order sync return the normalized records of the
remaining stores, omit the failing store's records, and do not raise an
error. -/
theorem aggregation_tolerates_store_failure (db : Db)
    (oracleP : ApiCall → ApiResponse ProductsData)
    (oracleO : ApiCall → ApiResponse OrdersData) (userId : String)
    (cfg : ConfigRec) (pre post : List StoreRec) (f : StoreRec)
    (preC postC : List (List CanonicalProduct))
    (hcfg : adminConfigQuery db = some cfg)
    (hrows : storesQuery db userId none = pre ++ f :: post)
    (hfp : callTikTokAPI oracleP (productCall cfg f) = none)
    (hfo : callTikTokAPI oracleO (orderCall cfg f) = none)
    (hpre : pre.mapM (storeProducts oracleP cfg) = Except.ok preC)
    (hpost : post.mapM (storeProducts oracleP cfg) = Except.ok postC) :
    (productsSync db oracleP userId none).1
      = HandlerResult.ok (preC.flatten ++ postC.flatten) ∧
    (ordersSync db oracleO userId none).1
      = HandlerResult.ok
          ((pre.map (storeOrders oracleO userId cfg)).flatten
            ++ (post.map (storeOrders oracleO userId cfg)).flatten) := by
  have hempty : (pre ++ f :: post).isEmpty = false := by cases pre <;> rfl
  constructor
  · have h1 : (productsLoop oracleP (some cfg) (pre ++ f :: post)).1
        = Except.ok (preC.flatten ++ postC.flatten) := by
      rw [productsLoop_eq_mapM, List.mapM_append, hpre, List.mapM_cons,
        storeProducts_of_call_none oracleP cfg f hfp, hpost]
      show Except.ok (preC ++ [] :: postC).flatten
        = Except.ok (preC.flatten ++ postC.flatten)
      rw [List.flatten_append, List.flatten_cons, List.nil_append]
    unfold productsSync
    simp only [hrows, hcfg, hempty, Bool.false_eq_true, if_false]
    rcases hr : productsLoop oracleP (some cfg) (pre ++ f :: post) with ⟨r1, r2⟩
    rw [hr] at h1
    simp only at h1
    rw [h1]
  · have h1 : (ordersLoop oracleO userId (some cfg) (pre ++ f :: post)).1
        = (pre.map (storeOrders oracleO userId cfg)).flatten
            ++ (post.map (storeOrders oracleO userId cfg)).flatten := by
      rw [ordersLoop_eq_map, List.map_append, List.map_cons,
        storeOrders_of_call_none oracleO userId cfg f hfo,
        List.flatten_append, List.flatten_cons, List.nil_append]
    unfold ordersSync
    simp only [hrows, hcfg, hempty, Bool.false_eq_true, if_false, h1]

/-- The admin config row shared by the concrete scenarios. -/
def cfgA : ConfigRec :=
  { userId := "u-admin-01", marketplace := "TikTok Shop",
    appKey := "AK", appSecret := "AS" }

/-- A healthy connected store. -/
def storeGood : StoreRec :=
  { id := 1, userId := "u-1", marketplace := "TikTok Shop", storeName := "Good",
    accessToken := "tokG", refreshToken := "refG", marketplaceShopId := "ciphG",
    isConnected := true }

/-- A store whose external calls fail. -/
def storeBad : StoreRec :=
  { id := 2, userId := "u-1", marketplace := "TikTok Shop", storeName := "Bad",
    accessToken := "tokB", refreshToken := "refB", marketplaceShopId := "ciphB",
    isConnected := true }

/-- Two stores of seller `u-1`, with the admin config present. -/
def dbC3 : Db := { stores := [storeGood, storeBad], configs := [cfgA] }

/-- A complete external product for the healthy store. -/
def prodFull : ExtProduct :=
  { id := "pA", title := "A",
    skus := [{ seller_sku := "S1", price := some { tax_exclusive_price := "5" },
               inventory := [{ quantity := 2 }] }],
    main_images := [], sales := none, status := "ACTIVATE" }

/-- The canonical record `prodFull` normalizes to for store 1. -/
def canonFull : CanonicalProduct :=
  { id := "pA", storeId := 1, name := "A", sku := "S1", price := some 5,
    stock := 2, imageUrl := some "", sold := 0, status := "Active" }

/-- Product oracle: transport error for the bad store's cipher, one product
otherwise. -/
def oracleC3P : ApiCall → ApiResponse ProductsData := fun c =>
  if c.shopCipher = "ciphB" then ApiResponse.exn
  else ApiResponse.envelope 0 { products := some [prodFull] }

/-- Order oracle: nonzero envelope code for the bad store's cipher, an empty
order page otherwise. -/
def oracleC3O : ApiCall → ApiResponse OrdersData := fun c =>
  if c.shopCipher = "ciphB" then ApiResponse.envelope 5 { orders := none }
  else ApiResponse.envelope 0 { orders := some [] }

unseal Rat.add Rat.mul Rat.inv in
/-- Witness for C3: with the bad store failing, the good store's record
comes through and no error is raised. -/
theorem aggregation_tolerates_store_failure_witness :
    (productsSync dbC3 oracleC3P "u-1" none).1 = HandlerResult.ok [canonFull] ∧
    (ordersSync dbC3 oracleC3O "u-1" none).1 = HandlerResult.ok [] := by
  have h := aggregation_tolerates_store_failure dbC3 oracleC3P oracleC3O "u-1"
    cfgA [storeGood] [] storeBad [[canonFull]] [] rfl rfl rfl rfl (by rfl) rfl
  exact ⟨h.1, h.2⟩

/-- With no config row the product loop makes no call and returns nothing. -/
theorem productsLoop_none (oracle : ApiCall → ApiResponse ProductsData) :
    ∀ rows : List StoreRec, productsLoop oracle none rows = (Except.ok [], []) := by
  intro rows
  induction rows with
  | nil => rfl
  | cons s rest ih => simpa [productsLoop] using ih

/-- With no config row the order loop makes no call and returns nothing. -/
theorem ordersLoop_none (oracle : ApiCall → ApiResponse OrdersData) (userId : String) :
    ∀ rows : List StoreRec, ordersLoop oracle userId none rows = ([], []) := by
  intro rows
  induction rows with
  | nil => rfl
  | cons s rest ih => simpa [ordersLoop] using ih

/-- Every call made by the product loop targets a row of the iterated list
whose marketplace is `TikTok Shop`, using the given config. -/
theorem productsLoop_calls (oracle : ApiCall → ApiResponse ProductsData)
    (cfg? : Option ConfigRec) (rows : List StoreRec) :
    ∀ c ∈ (productsLoop oracle cfg? rows).2,
      ∃ cfg, cfg? = some cfg ∧
        ∃ s, s ∈ rows ∧ s.marketplace = "TikTok Shop" ∧ c = productCall cfg s := by
  induction rows with
  | nil => intro c hc; exact absurd hc (List.not_mem_nil c)
  | cons s rest ih =>
      intro c hc
      match cfg? with
      | none =>
          rw [productsLoop_none] at hc
          exact absurd hc (List.not_mem_nil c)
      | some cfg =>
          by_cases hm : (s.marketplace == "TikTok Shop") = true
          · have hms : s.marketplace = "TikTok Shop" := by simpa using hm
            simp only [productsLoop, hm, if_true] at hc
            rcases hcall : callTikTokAPI oracle (productCall cfg s) with _ | ⟨_ | ps⟩
            · rw [hcall] at hc
              simp only [List.mem_cons] at hc
              rcases hc with rfl | hc
              · exact ⟨cfg, rfl, s, List.mem_cons_self s rest, hms, rfl⟩
              · obtain ⟨cfg', hcfg', s', hs', hm', hc'⟩ := ih c hc
                exact ⟨cfg', hcfg', s', List.mem_cons_of_mem s hs', hm', hc'⟩
            · rw [hcall] at hc
              simp only [List.mem_cons] at hc
              rcases hc with rfl | hc
              · exact ⟨cfg, rfl, s, List.mem_cons_self s rest, hms, rfl⟩
              · obtain ⟨cfg', hcfg', s', hs', hm', hc'⟩ := ih c hc
                exact ⟨cfg', hcfg', s', List.mem_cons_of_mem s hs', hm', hc'⟩
            · rw [hcall] at hc
              dsimp only at hc
              rcases hmap : ps.mapM (mapProduct s.id) with e | mapped
              · rw [hmap] at hc
                simp only [List.mem_singleton] at hc
                subst hc
                exact ⟨cfg, rfl, s, List.mem_cons_self s rest, hms, rfl⟩
              · rw [hmap] at hc
                simp only [List.mem_cons] at hc
                rcases hc with rfl | hc
                · exact ⟨cfg, rfl, s, List.mem_cons_self s rest, hms, rfl⟩
                · obtain ⟨cfg', hcfg', s', hs', hm', hc'⟩ := ih c hc
                  exact ⟨cfg', hcfg', s', List.mem_cons_of_mem s hs', hm', hc'⟩
          · simp only [productsLoop, hm, if_false] at hc
            obtain ⟨cfg', hcfg', s', hs', hm', hc'⟩ := ih c hc
            exact ⟨cfg', hcfg', s', List.mem_cons_of_mem s hs', hm', hc'⟩

/-- Every call made by the order loop targets a row of the iterated list
whose marketplace is `TikTok Shop`, using the given config. -/
theorem ordersLoop_calls (oracle : ApiCall → ApiResponse OrdersData)
    (userId : String) (cfg? : Option ConfigRec) (rows : List StoreRec) :
    ∀ c ∈ (ordersLoop oracle userId cfg? rows).2,
      ∃ cfg, cfg? = some cfg ∧
        ∃ s, s ∈ rows ∧ s.marketplace = "TikTok Shop" ∧ c = orderCall cfg s := by
  induction rows with
  | nil => intro c hc; exact absurd hc (List.not_mem_nil c)
  | cons s rest ih =>
      intro c hc
      match cfg? with
      | none =>
          rw [ordersLoop_none] at hc
          exact absurd hc (List.not_mem_nil c)
      | some cfg =>
          by_cases hm : (s.marketplace == "TikTok Shop") = true
          · have hms : s.marketplace = "TikTok Shop" := by simpa using hm
            simp only [ordersLoop, hm, if_true] at hc
            rcases hcall : callTikTokAPI oracle (orderCall cfg s) with _ | ⟨_ | os⟩ <;>
              rw [hcall] at hc <;> simp only [List.mem_cons] at hc <;>
              rcases hc with rfl | hc
            · exact ⟨cfg, rfl, s, List.mem_cons_self s rest, hms, rfl⟩
            · obtain ⟨cfg', hcfg', s', hs', hm', hc'⟩ := ih c hc
              exact ⟨cfg', hcfg', s', List.mem_cons_of_mem s hs', hm', hc'⟩
            · exact ⟨cfg, rfl, s, List.mem_cons_self s rest, hms, rfl⟩
            · obtain ⟨cfg', hcfg', s', hs', hm', hc'⟩ := ih c hc
              exact ⟨cfg', hcfg', s', List.mem_cons_of_mem s hs', hm', hc'⟩
            · exact ⟨cfg, rfl, s, List.mem_cons_self s rest, hms, rfl⟩
            · obtain ⟨cfg', hcfg', s', hs', hm', hc'⟩ := ih c hc
              exact ⟨cfg', hcfg', s', List.mem_cons_of_mem s hs', hm', hc'⟩
          · simp only [ordersLoop, hm, if_false] at hc
            obtain ⟨cfg', hcfg', s', hs', hm', hc'⟩ := ih c hc
            exact ⟨cfg', hcfg', s', List.mem_cons_of_mem s hs', hm', hc'⟩

/-- A disconnected TikTok store of seller `u-1`. -/
def storeDisc : StoreRec :=
  { id := 3, userId := "u-1", marketplace := "TikTok Shop", storeName := "Off",
    accessToken := "tokD", refreshToken := "refD", marketplaceShopId := "ciphD",
    isConnected := false }

/-- A database whose only store is disconnected, with the admin config
present. -/
def dbDisc : Db := { stores := [storeDisc], configs := [cfgA] }

/-- A product oracle answering an envelope with no `products` field. -/
def oracleNoProducts : ApiCall → ApiResponse ProductsData := fun _ =>
  ApiResponse.envelope 0 { products := none }

/-- An order oracle answering an envelope with no `orders` field. -/
def oracleNoOrders : ApiCall → ApiResponse OrdersData := fun _ =>
  ApiResponse.envelope 0 { orders := none }

/-- Counterexample to C4: the store query of the sync handlers does not
filter on the connected flag, so the one store of `dbDisc` — which has
`connected = false` — is still called by the product sync. -/
theorem disconnected_store_is_called :
    storeDisc.isConnected = false ∧
    (productsSync dbDisc oracleNoProducts "u-1" none).2
      = [productCall cfgA storeDisc] ∧
    (ordersSync dbDisc oracleNoOrders "u-1" none).2
      = [orderCall cfgA storeDisc] :=
  ⟨rfl, rfl, rfl⟩

/-- C4 (amended): the product and order syncs invoke the per-store call
only for store rows of the requesting seller whose marketplace is
`TikTok Shop`, and only when the admin marketplace config exists; the
connected flag is not consulted, so a row with `connected = false` is
called like any other. -/
theorem sync_calls_only_seller_tiktok_stores (db : Db)
    (oracleP : ApiCall → ApiResponse ProductsData)
    (oracleO : ApiCall → ApiResponse OrdersData)
    (userId : String) (storeId? : Option Nat) :
    (∀ c ∈ (productsSync db oracleP userId storeId?).2,
      ∃ cfg, adminConfigQuery db = some cfg ∧
        ∃ s, s ∈ storesQuery db userId storeId? ∧ s.marketplace = "TikTok Shop"
          ∧ c = productCall cfg s) ∧
    (∀ c ∈ (ordersSync db oracleO userId storeId?).2,
      ∃ cfg, adminConfigQuery db = some cfg ∧
        ∃ s, s ∈ storesQuery db userId storeId? ∧ s.marketplace = "TikTok Shop"
          ∧ c = orderCall cfg s) := by
  constructor
  · intro c hc
    have hc' : c ∈ (productsLoop oracleP (adminConfigQuery db)
        (storesQuery db userId storeId?)).2 := by
      unfold productsSync at hc
      by_cases he : (storesQuery db userId storeId?).isEmpty
      · simp only [he, if_true] at hc
        exact absurd hc (List.not_mem_nil c)
      · simp only [he, if_false] at hc
        rcases hr : productsLoop oracleP (adminConfigQuery db)
            (storesQuery db userId storeId?) with ⟨r1, r2⟩
        rw [hr] at hc
        cases r1 <;> simpa using hc
    obtain ⟨cfg, hcfg, s, hs, hm, hcall⟩ :=
      productsLoop_calls oracleP (adminConfigQuery db)
        (storesQuery db userId storeId?) c hc'
    exact ⟨cfg, hcfg, s, hs, hm, hcall⟩
  · intro c hc
    have hc' : c ∈ (ordersLoop oracleO userId (adminConfigQuery db)
        (storesQuery db userId storeId?)).2 := by
      unfold ordersSync at hc
      by_cases he : (storesQuery db userId storeId?).isEmpty
      · simp only [he, if_true] at hc
        exact absurd hc (List.not_mem_nil c)
      · simpa only [he, if_false] using hc
    obtain ⟨cfg, hcfg, s, hs, hm, hcall⟩ :=
      ordersLoop_calls oracleO userId (adminConfigQuery db)
        (storesQuery db userId storeId?) c hc'
    exact ⟨cfg, hcfg, s, hs, hm, hcall⟩

/-- Witness for the amended C4: the call observed in `dbDisc` is accounted
for by a seller-owned TikTok store row. -/
theorem sync_calls_only_seller_tiktok_stores_witness :
    ∃ cfg, adminConfigQuery dbDisc = some cfg ∧
      ∃ s, s ∈ storesQuery dbDisc "u-1" none ∧ s.marketplace = "TikTok Shop"
        ∧ productCall cfgA storeDisc = productCall cfg s :=
  (sync_calls_only_seller_tiktok_stores dbDisc oracleNoProducts oracleNoOrders
    "u-1" none).1 (productCall cfgA storeDisc) (by decide)

/-- A connected TikTok store of seller `u-1234-5678`, who has no
marketplace config of their own. -/
def storeSeller : StoreRec :=
  { id := 4, userId := "u-1234-5678", marketplace := "TikTok Shop",
    storeName := "Mine", accessToken := "tokS", refreshToken := "refS",
    marketplaceShopId := "ciphS", isConnected := true }

/-- Seller `u-1234-5678` has a store but no config row; only the admin's
config exists. -/
def dbSeller : Db := { stores := [storeSeller], configs := [cfgA] }

/-- A complete external product for the seller's store. -/
def prodSeller : ExtProduct :=
  { id := "pS", title := "S",
    skus := [{ seller_sku := "S9", price := some { tax_exclusive_price := "10.00" },
               inventory := [{ quantity := 1 }] }],
    main_images := [], sales := some 3, status := "ACTIVATE" }

/-- The canonical record `prodSeller` normalizes to for store 4. -/
def canonSeller : CanonicalProduct :=
  { id := "pS", storeId := 4, name := "S", sku := "S9", price := some 10,
    stock := 1, imageUrl := some "", sold := 3, status := "Active" }

/-- A product oracle returning one product for every call. -/
def oracleSeller : ApiCall → ApiResponse ProductsData := fun _ =>
  ApiResponse.envelope 0 { products := some [prodSeller] }

unseal Rat.add Rat.mul Rat.inv in
/-- Counterexample to C9: the requesting seller `u-1234-5678` has no
`MarketplaceConfig` row at all, yet the product sync attempts an external
call (using the admin's config) and returns a nonempty result. -/
theorem seller_without_config_syncs_anyway :
    dbSeller.configs.filter (fun c => c.userId == "u-1234-5678") = [] ∧
    (productsSync dbSeller oracleSeller "u-1234-5678" none).1
      = HandlerResult.ok [canonSeller] ∧
    (productsSync dbSeller oracleSeller "u-1234-5678" none).2
      = [productCall cfgA storeSeller] :=
  ⟨rfl, by rfl, rfl⟩

/-- C9 (amended): when the config row the code actually consults — the one
keyed by `('u-admin-01', 'TikTok Shop')` — is absent, the product and order
syncs return an empty list and attempt no external call, for every seller. -/
theorem sync_empty_without_admin_config (db : Db)
    (oracleP : ApiCall → ApiResponse ProductsData)
    (oracleO : ApiCall → ApiResponse OrdersData)
    (userId : String) (storeId? : Option Nat)
    (hcfg : adminConfigQuery db = none) :
    productsSync db oracleP userId storeId? = (HandlerResult.ok [], []) ∧
    ordersSync db oracleO userId storeId? = (HandlerResult.ok [], []) := by
  constructor
  · unfold productsSync
    rw [hcfg]
    by_cases he : (storesQuery db userId storeId?).isEmpty
    · rw [if_pos he]
    · rw [if_neg he, productsLoop_none]
  · unfold ordersSync
    rw [hcfg]
    by_cases he : (storesQuery db userId storeId?).isEmpty
    · rw [if_pos he]
    · rw [if_neg he, ordersLoop_none]

/-- The seller's store with no config rows at all. -/
def dbNoConfig : Db := { stores := [storeSeller], configs := [] }

/-- Witness for the amended C9 at a store-but-no-config database. -/
theorem sync_empty_without_admin_config_witness :
    productsSync dbNoConfig oracleSeller "u-1234-5678" none
      = (HandlerResult.ok [], []) ∧
    ordersSync dbNoConfig oracleNoOrders "u-1234-5678" none
      = (HandlerResult.ok [], []) :=
  sync_empty_without_admin_config dbNoConfig oracleSeller oracleNoOrders
    "u-1234-5678" none rfl

/-- The store query is the optional-id filter applied to the rows owned by
the seller. -/
theorem storesQuery_decomp (db : Db) (userId : String) (storeId? : Option Nat) :
    storesQuery db userId storeId?
      = (db.stores.filter fun s => s.userId == userId).filter
          (fun s => match storeId? with | some sid => s.id == sid | none => true) := by
  unfold storesQuery
  rw [List.filter_filter]
  apply List.filter_congr
  intro s _
  cases s.userId == userId <;>
    cases (match storeId? with | some sid => s.id == sid | none => true) <;> rfl

/-- The admin config lookup reads only the `configs` table. -/
theorem adminConfigQuery_congr {db db' : Db} (h : db.configs = db'.configs) :
    adminConfigQuery db = adminConfigQuery db' := by
  unfold adminConfigQuery
  rw [h]

/-- C10: a sync touches only store rows owned by the requesting seller:
passing a `storeId` that belongs to no store of the seller yields an empty
result with no external call, and the sync output is unchanged under any
modification of other sellers' store rows (same configs, same rows owned by
the seller). -/
theorem seller_isolation (db db' : Db)
    (oracleP : ApiCall → ApiResponse ProductsData)
    (oracleO : ApiCall → ApiResponse OrdersData)
    (userId : String) (sid : Nat)
    (hforeign : ∀ s ∈ db.stores, s.id = sid → s.userId ≠ userId)
    (hconf : db.configs = db'.configs)
    (hown : db.stores.filter (fun s => s.userId == userId)
          = db'.stores.filter (fun s => s.userId == userId)) :
    productsSync db oracleP userId (some sid) = (HandlerResult.ok [], []) ∧
    ordersSync db oracleO userId (some sid) = (HandlerResult.ok [], []) ∧
    ∀ storeId? : Option Nat,
      productsSync db oracleP userId storeId? = productsSync db' oracleP userId storeId? ∧
      ordersSync db oracleO userId storeId? = ordersSync db' oracleO userId storeId? := by
  have hq : storesQuery db userId (some sid) = [] := by
    unfold storesQuery
    rw [List.filter_eq_nil_iff]
    intro s hs hpred
    simp only [Bool.and_eq_true, beq_iff_eq] at hpred
    exact hforeign s hs hpred.2 hpred.1
  have hq2 : ∀ q, storesQuery db userId q = storesQuery db' userId q := by
    intro q
    rw [storesQuery_decomp, storesQuery_decomp, hown]
  have hc2 : adminConfigQuery db = adminConfigQuery db' := adminConfigQuery_congr hconf
  refine ⟨?_, ?_, ?_⟩
  · unfold productsSync
    rw [hq]
    rfl
  · unfold ordersSync
    rw [hq]
    rfl
  · intro q
    constructor
    · unfold productsSync
      rw [hq2 q, hc2]
    · unfold ordersSync
      rw [hq2 q, hc2]

/-- A second-seller database: same seller-owned rows and configs as
`dbSeller`, plus a foreign store owned by `u-other`. -/
def dbWithForeign : Db :=
  { stores := [storeSeller,
      { id := 9, userId := "u-other", marketplace := "TikTok Shop",
        storeName := "Foreign", accessToken := "tokF", refreshToken := "refF",
        marketplaceShopId := "ciphF", isConnected := true }],
    configs := [cfgA] }

/-- Witness for C10: requesting the foreign store's id as `u-1234-5678`
yields nothing and calls nothing, and adding the foreign row changes
nothing for that seller. -/
theorem seller_isolation_witness :
    productsSync dbWithForeign oracleSeller "u-1234-5678" (some 9)
      = (HandlerResult.ok [], []) ∧
    productsSync dbWithForeign oracleSeller "u-1234-5678" none
      = productsSync dbSeller oracleSeller "u-1234-5678" none := by
  have h := seller_isolation dbWithForeign dbSeller oracleSeller oracleNoOrders
    "u-1234-5678" 9 (by decide) rfl rfl
  exact ⟨h.1, ((h.2.2) none).1⟩

/-! ## Token Lifecycle Manager: OAuth callback and store upsert

The callback (src/server.js:137-196) is embedded as a pure function of the
query inputs, the tables, a token-endpoint oracle, and the id the database
would assign to an inserted row.  Base64/JSON decoding of `state` is not
modelled bit-for-bit: the callback receives the decode outcome (the decode
precedes everything except the `code` presence check, as in the source).
`last_sync` is not modelled.
-/

/-- The predicate of `SELECT id FROM stores WHERE user_id = $1 AND
marketplace_shop_id = $2`. -/
def matchesPair (userId shopId : String) (r : StoreRec) : Bool :=
  r.userId == userId && r.marketplaceShopId == shopId

/-- The row INSERTed by the callback (src/server.js:174-178). -/
def insertedRow (freshId : Nat) (userId shopId shopName accessTok refreshTok : String) :
    StoreRec :=
  { id := freshId, userId := userId, marketplace := "TikTok Shop",
    storeName := shopName, accessToken := accessTok, refreshToken := refreshTok,
    marketplaceShopId := shopId, isConnected := true }

/-- Embedding of the store upsert (src/server.js:166-179): take the first
row keyed by (user, external shop id); if found, UPDATE the token fields of
the row(s) with its id and set `is_connected`; otherwise INSERT a new
row. -/
def upsertStore (table : List StoreRec) (freshId : Nat)
    (userId shopId shopName accessTok refreshTok : String) : List StoreRec :=
  match (table.filter (matchesPair userId shopId)).head? with
  | some row =>
      table.map fun r =>
        if r.id == row.id then
          { r with accessToken := accessTok, refreshToken := refreshTok,
                   isConnected := true }
        else r
  | none => table ++ [insertedRow freshId userId shopId shopName accessTok refreshTok]

/-- Updating token fields preserves the (user, shop) key of every row. -/
theorem matchesPair_update (userId shopId : String) (i : Nat)
    (accessTok refreshTok : String) (r : StoreRec) :
    matchesPair userId shopId
      (if r.id == i then
        { r with accessToken := accessTok, refreshToken := refreshTok,
                 isConnected := true }
      else r) = matchesPair userId shopId r := by
  cases r.id == i <;> rfl

/-- Filtering by a pair key commutes with the token-field update map. -/
theorem filter_pair_map_update (u shop : String) (i : Nat) (a2 r2 : String)
    (l : List StoreRec) :
    (l.map fun r =>
        if r.id == i then
          { r with accessToken := a2, refreshToken := r2, isConnected := true }
        else r).filter (matchesPair u shop)
      = (l.filter (matchesPair u shop)).map fun r =>
          if r.id == i then
            { r with accessToken := a2, refreshToken := r2, isConnected := true }
          else r := by
  induction l with
  | nil => rfl
  | cons x xs ih =>
      simp only [List.map_cons, List.filter_cons, matchesPair_update, ih]
      cases matchesPair u shop x <;> simp

/-- Two upserts with the same (user, shop) key, starting from a table with
no row for that key, leave exactly one row for the key, carrying the second
upsert's tokens and `connected = true`. -/
theorem upsertStore_twice (t0 : List StoreRec) (n1 n2 : Nat)
    (u shop name1 name2 a1 r1 a2 r2 : String)
    (h0 : t0.filter (matchesPair u shop) = []) :
    ∃ row,
      ((upsertStore (upsertStore t0 n1 u shop name1 a1 r1) n2 u shop name2 a2 r2).filter
        (matchesPair u shop)) = [row]
      ∧ row.accessToken = a2 ∧ row.refreshToken = r2 ∧ row.isConnected = true := by
  have hpair : matchesPair u shop (insertedRow n1 u shop name1 a1 r1) = true := by
    simp [matchesPair, insertedRow]
  have h1 : upsertStore t0 n1 u shop name1 a1 r1
      = t0 ++ [insertedRow n1 u shop name1 a1 r1] := by
    unfold upsertStore
    rw [h0]
    rfl
  have h2 : (t0 ++ [insertedRow n1 u shop name1 a1 r1]).filter (matchesPair u shop)
      = [insertedRow n1 u shop name1 a1 r1] := by
    rw [List.filter_append, h0, List.filter_cons, hpair]
    rfl
  rw [h1]
  unfold upsertStore
  rw [h2]
  simp only [List.head?_cons]
  rw [filter_pair_map_update, h2]
  refine ⟨_, rfl, ?_, ?_, ?_⟩ <;> simp [insertedRow]

/-- The `data` of a successful token-endpoint response. -/
structure TokenData where
  access_token : String
  refresh_token : String
  shop_cipher : String
  seller_name : Option String
  deriving DecidableEq, Repr

/-- Evaluation of `tokenData.seller_name || ⟨synthesized from the cipher⟩`
(src/server.js:163). -/
def shopNameOf (d : TokenData) : String :=
  match d.seller_name with
  | some n => if n = "" then "TikTok Shop " ++ d.shop_cipher.take 6 else n
  | none => "TikTok Shop " ++ d.shop_cipher.take 6

/-- The HTTP outcome of the callback. -/
inductive CallbackResult where
  | badRequest (msg : String)
  | serverError (msg : String)
  | connected (shopName : String)
  deriving DecidableEq, Repr

/-- What the callback produced: the response, whether the token endpoint
was contacted, and the stores table afterwards. -/
structure CallbackOutcome where
  result : CallbackResult
  tokenEndpointCalled : Bool
  stores : List StoreRec
  deriving DecidableEq, Repr

/-- Outcome of decoding the `state` query parameter
(base64-encoded JSON `{u: sellerId, …}`). -/
inductive StateDecode where
  | ok (u : String)
  | malformed
  deriving DecidableEq, Repr

/-- Embedding of GET `/api/auth/callback/tiktok` (src/server.js:137-196).
The config lookup is keyed by the literal `'u-admin-01'`, not by the seller
id decoded from `state`; the decoded id is used only for the store
upsert. -/
def tiktokCallback (configs : List ConfigRec) (stores : List StoreRec)
    (code? : Option String) (stateD : StateDecode)
    (tokenOracle : ConfigRec → String → ApiResponse TokenData)
    (freshId : Nat) : CallbackOutcome :=
  match code? with
  | none => ⟨CallbackResult.badRequest "Error: No code returned from TikTok.",
      false, stores⟩
  | some code =>
      match stateD with
      | StateDecode.malformed =>
          ⟨CallbackResult.badRequest "Error: Invalid State.", false, stores⟩
      | StateDecode.ok userId =>
          match (configs.filter fun c =>
              c.userId == "u-admin-01" && c.marketplace == "TikTok Shop").head? with
          | none => ⟨CallbackResult.badRequest "System Error: Admin keys missing.",
              false, stores⟩
          | some cfg =>
              match tokenOracle cfg code with
              | ApiResponse.exn =>
                  ⟨CallbackResult.serverError "Internal Server Error", true, stores⟩
              | ApiResponse.envelope c d =>
                  if c ≠ 0 then
                    ⟨CallbackResult.serverError "TikTok Token Error", true, stores⟩
                  else
                    ⟨CallbackResult.connected (shopNameOf d), true,
                      upsertStore stores freshId userId d.shop_cipher (shopNameOf d)
                        d.access_token d.refresh_token⟩

/-- Embedding of the same callback in the `src/unnamed/part_003` variant
(lines 96-170), whose config lookup is keyed by the decoded seller id. -/
def tiktokCallbackSellerKeyed (configs : List ConfigRec) (stores : List StoreRec)
    (code? : Option String) (stateD : StateDecode)
    (tokenOracle : ConfigRec → String → ApiResponse TokenData)
    (freshId : Nat) : CallbackOutcome :=
  match code? with
  | none => ⟨CallbackResult.badRequest "Error: No code returned from TikTok.",
      false, stores⟩
  | some code =>
      match stateD with
      | StateDecode.malformed =>
          ⟨CallbackResult.badRequest "Error: Invalid State parameter.", false, stores⟩
      | StateDecode.ok userId =>
          match (configs.filter fun c =>
              c.userId == userId && c.marketplace == "TikTok Shop").head? with
          | none =>
              ⟨CallbackResult.badRequest
                "Configuration Missing: App Key/Secret not found in DB.",
                false, stores⟩
          | some cfg =>
              match tokenOracle cfg code with
              | ApiResponse.exn =>
                  ⟨CallbackResult.serverError "Internal Server Error", true, stores⟩
              | ApiResponse.envelope c d =>
                  if c ≠ 0 then
                    ⟨CallbackResult.serverError "TikTok API Error", true, stores⟩
                  else
                    ⟨CallbackResult.connected (shopNameOf d), true,
                      upsertStore stores freshId userId d.shop_cipher (shopNameOf d)
                        d.access_token d.refresh_token⟩

/-- C7: invoking the OAuth callback twice with authorization codes whose
token exchanges resolve to the same external shop identifier, for the same
seller, leaves exactly one store row for that (seller, shop) pair, carrying
the second call's access and refresh tokens and `connected = true`. -/
theorem callback_upsert_idempotent (configs : List ConfigRec)
    (t0 : List StoreRec) (code1 code2 u : String)
    (tokenOracle : ConfigRec → String → ApiResponse TokenData)
    (n1 n2 : Nat) (d1 d2 : TokenData) (cfg : ConfigRec)
    (hcfg : (configs.filter fun c =>
        c.userId == "u-admin-01" && c.marketplace == "TikTok Shop").head? = some cfg)
    (htok1 : tokenOracle cfg code1 = ApiResponse.envelope 0 d1)
    (htok2 : tokenOracle cfg code2 = ApiResponse.envelope 0 d2)
    (hsame : d1.shop_cipher = d2.shop_cipher)
    (h0 : t0.filter (matchesPair u d2.shop_cipher) = []) :
    ∃ row,
      ((tiktokCallback configs
          (tiktokCallback configs t0 (some code1) (StateDecode.ok u) tokenOracle n1).stores
          (some code2) (StateDecode.ok u) tokenOracle n2).stores.filter
        (matchesPair u d2.shop_cipher)) = [row]
      ∧ row.accessToken = d2.access_token ∧ row.refreshToken = d2.refresh_token
      ∧ row.isConnected = true := by
  have hred : ∀ (t : List StoreRec) (code : String) (n : Nat) (d : TokenData),
      tokenOracle cfg code = ApiResponse.envelope 0 d →
      (tiktokCallback configs t (some code) (StateDecode.ok u) tokenOracle n).stores
        = upsertStore t n u d.shop_cipher (shopNameOf d) d.access_token d.refresh_token := by
    intro t code n d htok
    unfold tiktokCallback
    rw [hcfg]
    dsimp only
    rw [htok]
    rfl
  rw [hred _ code2 n2 d2 htok2, hred _ code1 n1 d1 htok1, hsame]
  exact upsertStore_twice t0 n1 n2 u d2.shop_cipher (shopNameOf d1) (shopNameOf d2)
    d1.access_token d1.refresh_token d2.access_token d2.refresh_token h0

/-- Token data returned for the first witness code. -/
def tok1 : TokenData :=
  { access_token := "atA", refresh_token := "rtA", shop_cipher := "ciphZ",
    seller_name := some "Zed Shop" }

/-- Token data returned for the second witness code, same shop cipher. -/
def tok2 : TokenData :=
  { access_token := "atB", refresh_token := "rtB", shop_cipher := "ciphZ",
    seller_name := none }

/-- A token-endpoint oracle resolving the two witness codes. -/
def tokenOracleW : ConfigRec → String → ApiResponse TokenData := fun _ code =>
  if code = "code1" then ApiResponse.envelope 0 tok1
  else ApiResponse.envelope 0 tok2

/-- Witness for C7 from an empty stores table. -/
theorem callback_upsert_idempotent_witness :
    ∃ row,
      ((tiktokCallback [cfgA]
          (tiktokCallback [cfgA] [] (some "code1") (StateDecode.ok "u-1") tokenOracleW 10).stores
          (some "code2") (StateDecode.ok "u-1") tokenOracleW 11).stores.filter
        (matchesPair "u-1" "ciphZ")) = [row]
      ∧ row.accessToken = "atB" ∧ row.refreshToken = "rtB"
      ∧ row.isConnected = true :=
  callback_upsert_idempotent [cfgA] [] "code1" "code2" "u-1" tokenOracleW
    10 11 tok1 tok2 cfgA rfl rfl rfl rfl rfl

/-- A config row owned by the seller `u-1234-5678` themselves. -/
def cfgSeller : ConfigRec :=
  { userId := "u-1234-5678", marketplace := "TikTok Shop",
    appKey := "SK", appSecret := "SS" }

/-- Counterexample to C8: with the initiating seller's own config present
(and decodable state naming that seller), the `server.js` callback still
fails with the config-missing response and never contacts the token
endpoint — its lookup is keyed by the literal `'u-admin-01'`, not by the
seller decoded from `state`.  The `part_003` variant, keyed by the decoded
seller, proceeds to the exchange. -/
theorem callback_ignores_seller_config :
    tiktokCallback [cfgSeller] [] (some "codeX") (StateDecode.ok "u-1234-5678")
        tokenOracleW 1
      = ⟨CallbackResult.badRequest "System Error: Admin keys missing.", false, []⟩ ∧
    (tiktokCallbackSellerKeyed [cfgSeller] [] (some "codeX")
        (StateDecode.ok "u-1234-5678") tokenOracleW 1).tokenEndpointCalled = true :=
  ⟨rfl, rfl⟩

/-- C8 (amended): the callback looks up the config before any token call —
keyed by `('u-admin-01', 'TikTok Shop')` in `server.js`, and by the seller
id decoded from `state` in the `part_003` variant — and when that lookup is
empty it fails terminally with the configuration-missing response, leaving
the stores table untouched and the token endpoint uncalled. -/
theorem callback_config_missing (configs : List ConfigRec) (stores : List StoreRec)
    (code u : String) (tokenOracle : ConfigRec → String → ApiResponse TokenData)
    (freshId : Nat) :
    (configs.filter (fun c =>
        c.userId == "u-admin-01" && c.marketplace == "TikTok Shop") = [] →
      tiktokCallback configs stores (some code) (StateDecode.ok u) tokenOracle freshId
        = ⟨CallbackResult.badRequest "System Error: Admin keys missing.",
            false, stores⟩) ∧
    (configs.filter (fun c =>
        c.userId == u && c.marketplace == "TikTok Shop") = [] →
      tiktokCallbackSellerKeyed configs stores (some code) (StateDecode.ok u)
          tokenOracle freshId
        = ⟨CallbackResult.badRequest
            "Configuration Missing: App Key/Secret not found in DB.",
            false, stores⟩) := by
  constructor
  · intro h
    unfold tiktokCallback
    dsimp only
    rw [h]
    rfl
  · intro h
    unfold tiktokCallbackSellerKeyed
    dsimp only
    rw [h]
    rfl

/-- Witness for the amended C8: no configs at all. -/
theorem callback_config_missing_witness :
    tiktokCallback [] [] (some "codeX") (StateDecode.ok "u-1") tokenOracleW 1
      = ⟨CallbackResult.badRequest "System Error: Admin keys missing.", false, []⟩ ∧
    tiktokCallbackSellerKeyed [] [] (some "codeX") (StateDecode.ok "u-1")
        tokenOracleW 1
      = ⟨CallbackResult.badRequest
          "Configuration Missing: App Key/Secret not found in DB.", false, []⟩ := by
  have h := callback_config_missing [] [] "codeX" "u-1" tokenOracleW 1
  exact ⟨h.1 rfl, h.2 rfl⟩

end OmniSeller
